import Mathlib

/-!
Verification of the data-analysis core of `Final_1.0.py`: the `DataManager`
load/validate path, the `QueryManager` filters, and the chart-data
derivations of `PlotManager`, embedded shallowly over an explicit table
model.  Pandas DataFrames are modelled as a column list plus rows of
optional cells (a missing cell, pandas `NaN`/`NaT`, is `none`); cells read
from a CSV file are strings, and the in-place retyping the code performs
(`pd.to_datetime`, `pd.to_numeric`) turns them into date or numeric cells.
-/

/-- Calendar date: the model of a parsed pandas `Timestamp` (date part). -/
structure Date where
  year : Nat
  month : Nat
  day : Nat
deriving DecidableEq, Repr

/-- Timestamp comparison, lexicographic on (year, month, day). -/
def Date.le (a b : Date) : Bool :=
  decide (a.year < b.year) ||
    (a.year == b.year &&
      (decide (a.month < b.month) ||
        (a.month == b.month && decide (a.day ≤ b.day))))

/-- A present cell value: a raw CSV string, or a value produced by the
in-place retyping in the code (`pd.to_datetime` / `pd.to_numeric`). -/
inductive CellV where
  | str (v : String)
  | date (v : Date)
  | num (v : Int)
deriving DecidableEq, Repr

/-- A pandas cell: `none` is `NaN`/`NaT`. -/
abbrev Cell := Option CellV

/-- A pandas DataFrame: named columns and rows of cells in file order. -/
structure Table where
  cols : List String
  rows : List (List Cell)
deriving DecidableEq, Repr

/-- Rows are rectangular: every row has one cell per column. -/
def Table.wf (t : Table) : Prop := ∀ r ∈ t.rows, r.length = t.cols.length

/-- The `DataManager` state: the three tables, `none` before assignment. -/
structure DataManager where
  tabdb : Option Table
  playdb : Option Table
  requestdb : Option Table
deriving DecidableEq, Repr

/-- Index of the first column with the given name. -/
def colIndex (cols : List String) (c : String) : Option Nat :=
  match cols with
  | [] => none
  | x :: xs => if x = c then some 0 else (colIndex xs c).map (· + 1)

/-- Cell of row `r` in column `c` (missing column or short row reads `NaN`). -/
def getCell (cols : List String) (r : List Cell) (c : String) : Cell :=
  match colIndex cols c with
  | some i => (r.get? i).getD none
  | none => none

/-- The column `c` of a table as a list of cells, `df[c]`. -/
def colCells (t : Table) (c : String) : List Cell :=
  t.rows.map (fun r => getCell t.cols r c)

/-- `Series.count()`: number of non-null cells. -/
def countNonNull (cells : List Cell) : Nat :=
  (cells.filter (fun c => c.isSome)).length

/-- Decimal digit value of a character. -/
def digitVal (c : Char) : Option Nat :=
  if c.isDigit then some (c.toNat - 48) else none

/-- Parse a digit string (tail of digits) into a number. -/
def natFromDigits (acc : Nat) : List Char → Option Nat
  | [] => some acc
  | c :: cs =>
    match digitVal c with
    | some d => natFromDigits (acc * 10 + d) cs
    | none => none

/-- Parse a non-empty all-digit character list. -/
def parseNat (l : List Char) : Option Nat :=
  match l with
  | [] => none
  | _ => natFromDigits 0 l

/-- Parse an optionally negated digit string. -/
def parseInt (l : List Char) : Option Int :=
  match l with
  | [] => none
  | c :: rest =>
    if c = '-' then (parseNat rest).map (fun n => -(n : Int))
    else (parseNat l).map (fun n => (n : Int))

/-- Split a character list at every occurrence of `sep`. -/
def splitOnChar (sep : Char) : List Char → List (List Char)
  | [] => [[]]
  | c :: cs =>
    match splitOnChar sep cs with
    | h :: t => if c = sep then [] :: h :: t else (c :: h) :: t
    | [] => if c = sep then [[], []] else [[c]]

/-- Whether a string is a numeric literal (integer or decimal fraction),
the shape that makes `pd.read_csv` infer a numeric dtype for the cell. -/
def isNumLit (s : String) : Bool :=
  match parseInt s.data with
  | some _ => true
  | none =>
    match splitOnChar '.' s.data with
    | [a, b] => (parseInt a).isSome && (parseNat b).isSome
    | _ => false

/-- Whether one cell is compatible with a numeric column dtype. -/
def cellNumeric (c : Cell) : Bool :=
  match c with
  | none => true
  | some (.str v) => isNumLit v
  | some (.num _) => true
  | some (.date _) => false

/-- `np.issubdtype(series.dtype, np.number)` for a CSV-read column: pandas
infers a numeric dtype when the column is non-empty and every present cell
is a numeric literal (all-null columns read as `float64`). -/
def numericDtype (cells : List Cell) : Bool :=
  !cells.isEmpty && cells.all cellNumeric

/-- `pd.to_numeric(_, errors=coerce)` on one cell, as an integer part;
non-numeric cells coerce to `NaN` (`none`).  The integer part is all the
decade computation below consumes. -/
def cellToNum (c : Cell) : Option Int :=
  match c with
  | some (.str v) =>
    (match parseInt v.data with
     | some n => some n
     | none =>
       match splitOnChar '.' v.data with
       | [a, b] => if (parseNat b).isSome then parseInt a else none
       | _ => none)
  | some (.num v) => some v
  | _ => none

/-- `pd.to_datetime` on one string in the documented YYYY-MM-DD format. -/
def parseDateStr (s : String) : Option Date :=
  match splitOnChar '-' s.data with
  | [ys, ms, ds] =>
    match parseNat ys, parseNat ms, parseNat ds with
    | some y, some m, some d =>
      if 1 ≤ m && m ≤ 12 && 1 ≤ d && d ≤ 31 then some ⟨y, m, d⟩ else none
    | _, _, _ => none
  | _ => none

/-- `pd.to_datetime(_, errors=coerce)` on one cell: strings parse or
coerce to `NaT`, datetime cells pass through. -/
def cellDate (c : Cell) : Option Date :=
  match c with
  | some (.date v) => some v
  | some (.str v) => parseDateStr v
  | _ => none

/-- `row.fillna(v)`: replace every null cell by `v`. -/
def fillnaRow (v : CellV) (r : List Cell) : List Cell :=
  r.map (fun c => some (c.getD v))

/-- `df.fillna(v, inplace=True)`: the table with nulls replaced by `v`. -/
def fillna (v : CellV) (t : Table) : Table :=
  ⟨t.cols, t.rows.map (fillnaRow v)⟩

/-- The 12 required tabdb columns, in the order the validator checks them. -/
def required_columns : List String :=
  ["song", "artist", "year", "type", "gender", "duration", "language",
   "tabber", "source", "date", "difficulty", "special books"]

/-- `DataManager._validate_tabdb`: require the 12 columns (raising on the
first absent one), require numeric `year` and `difficulty` dtypes, then
fill nulls with the string `"Unknown"`. -/
def validate_tabdb (t : Table) : Except String Table :=
  match required_columns.find? (fun c => !(t.cols.contains c)) with
  | some c => .error ("Missing required column in tabdb.csv: " ++ c)
  | none =>
    if !numericDtype (colCells t "year") then
      .error "Column \x27year\x27 must be numeric in tabdb.csv."
    else if !numericDtype (colCells t "difficulty") then
      .error "Column \x27difficulty\x27 must be numeric in tabdb.csv."
    else .ok (fillna (.str "Unknown") t)

/-- `DataManager._validate_playdb`: require `song` and `artist`, then fill
nulls with the empty string. -/
def validate_playdb (t : Table) : Except String Table :=
  match ["song", "artist"].find? (fun c => !(t.cols.contains c)) with
  | some c => .error ("Missing required column in playdb.csv: " ++ c)
  | none => .ok (fillna (.str "") t)

/-- `DataManager._validate_requestdb`: same checks for requestdb. -/
def validate_requestdb (t : Table) : Except String Table :=
  match ["song", "artist"].find? (fun c => !(t.cols.contains c)) with
  | some c => .error ("Missing required column in requestdb.csv: " ++ c)
  | none => .ok (fillna (.str "") t)

/-- Outcome of `pd.read_csv` on one path: a table, `FileNotFoundError`, or
`pd.errors.EmptyDataError`. -/
inductive ReadResult where
  | ok (t : Table)
  | fileNotFound (msg : String)
  | emptyData
deriving DecidableEq, Repr

/-- `DataManager.load_data`: the three sources are read and validated
sequentially inside a single `try` block; each raw table is assigned to
its field before its validator runs; any exception is caught by the
`except` clauses, which print a message and end the call (nothing is
re-raised to the caller).  Returns the new state and the printed lines. -/
def load_data (dm : DataManager) (tabSrc playSrc reqSrc : ReadResult) :
    DataManager × List String :=
  match tabSrc with
  | .fileNotFound m => (dm, ["Error: " ++ m])
  | .emptyData => (dm, ["Error: One or more files are empty."])
  | .ok traw =>
    let dm1 : DataManager := { dm with tabdb := some traw }
    match validate_tabdb traw with
    | .error m => (dm1, ["An unexpected error occurred: " ++ m])
    | .ok tval =>
      let dm2 : DataManager := { dm1 with tabdb := some tval }
      let out1 := ["tabdb.csv loaded successfully."]
      match playSrc with
      | .fileNotFound m => (dm2, out1 ++ ["Error: " ++ m])
      | .emptyData => (dm2, out1 ++ ["Error: One or more files are empty."])
      | .ok praw =>
        let dm3 : DataManager := { dm2 with playdb := some praw }
        match validate_playdb praw with
        | .error m => (dm3, out1 ++ ["An unexpected error occurred: " ++ m])
        | .ok pval =>
          let dm4 : DataManager := { dm3 with playdb := some pval }
          let out2 := out1 ++ ["playdb.csv loaded successfully."]
          match reqSrc with
          | .fileNotFound m => (dm4, out2 ++ ["Error: " ++ m])
          | .emptyData => (dm4, out2 ++ ["Error: One or more files are empty."])
          | .ok rraw =>
            let dm5 : DataManager := { dm4 with requestdb := some rraw }
            match validate_requestdb rraw with
            | .error m => (dm5, out2 ++ ["An unexpected error occurred: " ++ m])
            | .ok rval =>
              ({ dm5 with requestdb := some rval },
               out2 ++ ["requestdb.csv loaded successfully."])

/-- The `ValueError` message every query raises on an unset table. -/
def notLoadedMsg : String :=
  "Data has not been loaded. Please load the data using DataManager first."

/-- `df[df[c] == v]` row predicate: the cell equals the (string) value. -/
def rowMatches (cols : List String) (c v : String) (r : List Cell) : Bool :=
  getCell cols r c == some (.str v)

/-- The loop body of `QueryManager.filter_tabdb`: apply each criterion in
turn to a successively narrowed frame, raising on an unknown column. -/
def applyFilters (df : Table) (fs : List (String × String)) : Except String Table :=
  match fs with
  | [] => .ok df
  | (c, v) :: rest =>
    if df.cols.contains c then
      applyFilters ⟨df.cols, df.rows.filter (rowMatches df.cols c v)⟩ rest
    else
      .error ("Column \x27" ++ c ++ "\x27 does not exist in tabdb.")

/-- `QueryManager.filter_tabdb`: `NotLoaded` on an unset tab table, then
the criterion loop.  The stored table is never reassigned. -/
def filter_tabdb (dm : DataManager) (fs : List (String × String)) :
    Except String Table :=
  match dm.tabdb with
  | none => .error notLoadedMsg
  | some df => applyFilters df fs

/-- One row after `df[date] = pd.to_datetime(df[date], errors=coerce)`:
the first `date` cell is replaced by its parsed value (or `NaT`). -/
def parseRowDate (cols : List String) (r : List Cell) : List Cell :=
  match colIndex cols "date" with
  | some i => r.set i ((cellDate ((r.get? i).getD none)).map CellV.date)
  | none => r

/-- The in-place date retyping applied to the whole stored tab table. -/
def reparse_dates (t : Table) : Table :=
  ⟨t.cols, t.rows.map (parseRowDate t.cols)⟩

/-- The mask `(df[date] >= start) & (df[date] <= end)` on one parsed cell;
`NaT` (and any unparsed cell) compares false. -/
def dateCellInRange (sd ed : Date) (c : Cell) : Bool :=
  match c with
  | some (.date d) => Date.le sd d && Date.le d ed
  | _ => false

/-- `QueryManager.filter_by_date_range`: re-parses the `date` column of
the stored table IN PLACE (the stored `tabdb` is mutated), then returns the
masked rows.  Result: the new `DataManager` state and the returned frame. -/
def filter_by_date_range (dm : DataManager) (s e : String) :
    Except String (DataManager × Table) :=
  match dm.tabdb with
  | none => .error notLoadedMsg
  | some df0 =>
    if (colIndex df0.cols "date").isSome then
      match parseDateStr s, parseDateStr e with
      | some sd, some ed =>
        let df := reparse_dates df0
        .ok ({ dm with tabdb := some df },
             ⟨df.cols,
              df.rows.filter (fun r => dateCellInRange sd ed (getCell df.cols r "date"))⟩)
      | _, _ => .error "Unable to parse a date bound."
    else .error "KeyError: date"

/-- `QueryManager.count_song_plays`: `df[song_title].count()`. -/
def count_song_plays (dm : DataManager) (song_title : String) :
    Except String Nat :=
  match dm.playdb with
  | none => .error notLoadedMsg
  | some df =>
    if df.cols.contains song_title then
      .ok (countNonNull (colCells df song_title))
    else .error ("KeyError: " ++ song_title)

/-- The decade of each row whose `year` cell coerces to a number:
`(year // 10) * 10` with floor division, coercion failures dropped. -/
def rowDecades (t : Table) : List Int :=
  (colCells t "year").filterMap (fun c => (cellToNum c).map (fun y => y.fdiv 10 * 10))

/-- Insert into a strictly-sorted list, keeping it sorted and duplicate
free: the shape of `value_counts().sort_index()` keys. -/
def insertSD (x : Int) : List Int → List Int
  | [] => [x]
  | y :: ys =>
    if x < y then x :: y :: ys
    else if x = y then y :: ys
    else y :: insertSD x ys

/-- The distinct values of a list in ascending order. -/
def sortedDedup (l : List Int) : List Int := l.foldr insertSD []

/-- `df[c] = cells`: overwrite an existing column, or append a new one. -/
def setColumnCells (t : Table) (c : String) (cells : List Cell) : Table :=
  match colIndex t.cols c with
  | some i => ⟨t.cols, (t.rows.zip cells).map (fun p => p.1.set i p.2)⟩
  | none => ⟨t.cols ++ [c], (t.rows.zip cells).map (fun p => p.1 ++ [p.2])⟩

/-- `PlotManager.plot_bar_chart_by_decade`: coerces `year` to numeric IN
PLACE, adds a `decade` column IN PLACE, and plots
`value_counts().sort_index()` of the decades.  Result: the new state and
the plotted (decade, count) series in ascending decade order. -/
def plot_bar_chart_by_decade (dm : DataManager) :
    Except String (DataManager × List (Int × Nat)) :=
  match dm.tabdb with
  | none => .error notLoadedMsg
  | some df =>
    if (colIndex df.cols "year").isSome then
      let ycells := colCells df "year"
      let df1 := setColumnCells df "year"
        (ycells.map (fun c => (cellToNum c).map CellV.num))
      let df2 := setColumnCells df1 "decade"
        (ycells.map (fun c => (cellToNum c).map (fun y => CellV.num (y.fdiv 10 * 10))))
      let ds := rowDecades df
      .ok ({ dm with tabdb := some df2 },
           (sortedDedup ds).map (fun d => (d, ds.count d)))
    else .error "KeyError: year"

/-- `df.drop(columns=names)`: remove the named columns from the schema
and from every row. -/
def dropCols (t : Table) (names : List String) : Table :=
  ⟨t.cols.filter (fun c => !(names.contains c)),
   t.rows.map (fun r => ((t.cols.zip r).filter (fun p => !(names.contains p.1))).map Prod.snd)⟩

/-- Running sums with an accumulator. -/
def cumsumAux (acc : Nat) : List Nat → List Nat
  | [] => []
  | x :: xs => (acc + x) :: cumsumAux (acc + x) xs

/-- `Series.cumsum()` over the per-column counts. -/
def cumsum (l : List Nat) : List Nat := cumsumAux 0 l

/-- `df.drop(columns=[song, artist]).count(axis=0)`: the non-null cell
count of each remaining column, in original column order. -/
def playCounts (t : Table) : List Nat :=
  let t2 := dropCols t ["song", "artist"]
  t2.cols.map (fun c => countNonNull (colCells t2 c))

/-- `PlotManager.plot_cumulative_line_chart`: drop `song`/`artist`, count
non-null cells per remaining column, cumulative-sum in column order.
Returns the plotted (column name, cumulative count) series. -/
def plot_cumulative_line_chart (dm : DataManager) :
    Except String (List (String × Nat)) :=
  match dm.playdb with
  | none => .error notLoadedMsg
  | some df =>
    if df.cols.contains "song" && df.cols.contains "artist" then
      .ok ((dropCols df ["song", "artist"]).cols.zip (cumsum (playCounts df)))
    else .error "KeyError: labels not found in axis"

deriving instance DecidableEq for Except

/-! ## Basic lemmas about the table model -/

theorem colIndex_lt_length {cols : List String} {c : String} {i : Nat}
    (h : colIndex cols c = some i) : i < cols.length := by
  induction cols generalizing i with
  | nil => simp [colIndex] at h
  | cons x xs ih =>
    simp only [List.length_cons]
    by_cases hx : x = c
    · simp [colIndex, hx] at h
      omega
    · simp only [colIndex, if_neg hx, Option.map_eq_some'] at h
      obtain ⟨j, hj, rfl⟩ := h
      have := ih hj
      omega

theorem colIndex_get {cols : List String} {c : String} {i : Nat}
    (h : colIndex cols c = some i) : cols.get? i = some c := by
  induction cols generalizing i with
  | nil => simp [colIndex] at h
  | cons x xs ih =>
    by_cases hx : x = c
    · simp [colIndex, hx] at h
      subst h
      simp [hx]
    · simp only [colIndex, if_neg hx, Option.map_eq_some'] at h
      obtain ⟨j, hj, rfl⟩ := h
      simpa using ih hj

theorem colIndex_isSome_iff_mem {cols : List String} {c : String} :
    (colIndex cols c).isSome = true ↔ c ∈ cols := by
  induction cols with
  | nil => simp [colIndex]
  | cons x xs ih =>
    by_cases hx : x = c
    · simp [colIndex, hx]
    · simp [colIndex, hx, ih, Ne.symm hx]

theorem colIndex_isSome_of_contains {cols : List String} {c : String}
    (h : cols.contains c = true) : (colIndex cols c).isSome = true :=
  colIndex_isSome_iff_mem.mpr (List.elem_iff.mp h)

theorem cumsumAux_length (a : Nat) (l : List Nat) :
    (cumsumAux a l).length = l.length := by
  induction l generalizing a with
  | nil => rfl
  | cons x xs ih => simp [cumsumAux, ih]

theorem cumsumAux_get (a : Nat) (l : List Nat) (i : Nat)
    (h : i < (cumsumAux a l).length) :
    (cumsumAux a l).get ⟨i, h⟩ = a + (l.take (i + 1)).sum := by
  induction l generalizing a i with
  | nil => simp [cumsumAux] at h
  | cons x xs ih =>
    cases i with
    | zero => simp [cumsumAux]
    | succ n =>
      have hn : n < (cumsumAux (a + x) xs).length := by
        have := h
        simp [cumsumAux] at this
        simpa [cumsumAux_length] using this
      have := ih (a + x) n hn
      simp only [cumsumAux, List.get_cons_succ, List.take_succ_cons, List.sum_cons]
      rw [this]
      omega

theorem mem_insertSD {x a : Int} {l : List Int} :
    a ∈ insertSD x l ↔ a = x ∨ a ∈ l := by
  induction l with
  | nil => simp [insertSD]
  | cons y ys ih =>
    by_cases h1 : x < y
    · simp [insertSD, h1]
    · by_cases h2 : x = y
      · subst h2
        rw [insertSD, if_neg h1, if_pos rfl]
        simp only [List.mem_cons]
        tauto
      · simp only [insertSD, if_neg h1, if_neg h2, List.mem_cons, ih]
        tauto

theorem sorted_insertSD {x : Int} {l : List Int} (h : l.Sorted (· < ·)) :
    (insertSD x l).Sorted (· < ·) := by
  induction l with
  | nil => simp [insertSD]
  | cons y ys ih =>
    rw [List.sorted_cons] at h
    obtain ⟨hy, hys⟩ := h
    by_cases h1 : x < y
    · rw [insertSD, if_pos h1, List.sorted_cons]
      refine ⟨?_, List.sorted_cons.mpr ⟨hy, hys⟩⟩
      intro b hb
      rcases List.mem_cons.mp hb with rfl | hb
      · exact h1
      · exact lt_trans h1 (hy b hb)
    · by_cases h2 : x = y
      · rw [insertSD, if_neg h1, if_pos h2]
        exact List.sorted_cons.mpr ⟨hy, hys⟩
      · have hyx : y < x := lt_of_le_of_ne (not_lt.mp h1) (Ne.symm h2)
        rw [insertSD, if_neg h1, if_neg h2, List.sorted_cons]
        refine ⟨?_, ih hys⟩
        intro b hb
        rcases mem_insertSD.mp hb with rfl | hb
        · exact hyx
        · exact hy b hb

theorem mem_sortedDedup {a : Int} {l : List Int} :
    a ∈ sortedDedup l ↔ a ∈ l := by
  induction l with
  | nil => simp [sortedDedup]
  | cons x xs ih =>
    show a ∈ insertSD x (sortedDedup xs) ↔ _
    rw [mem_insertSD, ih]
    simp

theorem sorted_sortedDedup (l : List Int) : (sortedDedup l).Sorted (· < ·) := by
  induction l with
  | nil => simp [sortedDedup]
  | cons x xs ih => exact sorted_insertSD ih

theorem Date.le_refl (d : Date) : Date.le d d = true := by
  simp [Date.le]

theorem Date.le_antisymm {a b : Date} (h1 : Date.le a b = true)
    (h2 : Date.le b a = true) : a = b := by
  cases a
  cases b
  simp only [Date.le, Bool.or_eq_true, Bool.and_eq_true, decide_eq_true_eq,
    beq_iff_eq] at h1 h2
  simp only [Date.mk.injEq]
  omega

theorem mem_fillnaRow_isSome {v : CellV} {r : List Cell} {x : Cell}
    (h : x ∈ fillnaRow v r) : x.isSome = true := by
  simp only [fillnaRow, List.mem_map] at h
  obtain ⟨c, _, rfl⟩ := h
  rfl

theorem getCell_parseRowDate_ne {cols : List String} {r : List Cell} {c : String}
    (hc : c ≠ "date") : getCell cols (parseRowDate cols r) c = getCell cols r c := by
  unfold parseRowDate
  cases hdi : colIndex cols "date" with
  | none => rfl
  | some i =>
    unfold getCell
    cases hci : colIndex cols c with
    | none => rfl
    | some j =>
      have hne : i ≠ j := by
        intro hij
        subst hij
        have e1 := colIndex_get hdi
        have e2 := colIndex_get hci
        rw [e1] at e2
        exact hc (Option.some.injEq _ _ ▸ e2).symm
      dsimp only
      rw [List.get?_eq_getElem?, List.get?_eq_getElem?, List.getElem?_set_ne hne]
      rw [List.get?_eq_getElem?]

theorem getCell_parseRowDate_date {cols : List String} {r : List Cell} {i : Nat}
    (hdi : colIndex cols "date" = some i) :
    getCell cols (parseRowDate cols r) "date" =
      (cellDate (getCell cols r "date")).map CellV.date := by
  unfold parseRowDate getCell
  rw [hdi]
  dsimp only
  by_cases hlen : i < r.length
  · rw [List.get?_eq_getElem?, List.getElem?_set_self (by simpa using hlen)]
    simp
  · rw [List.set_eq_of_length_le (by omega), List.get?_eq_none.mpr (by omega)]
    simp [cellDate]

theorem dateCellInRange_map (sd ed : Date) (o : Option Date) :
    dateCellInRange sd ed (o.map CellV.date) =
      match o with
      | some d => Date.le sd d && Date.le d ed
      | none => false := by
  cases o <;> rfl

theorem countNonNull_eq_length {cells : List Cell}
    (h : ∀ x ∈ cells, x.isSome = true) : countNonNull cells = cells.length := by
  unfold countNonNull
  rw [List.filter_eq_self.mpr h]

theorem countNonNull_col_of_allSome {t : Table} {c : String}
    (hwf : t.wf) (hall : ∀ r ∈ t.rows, ∀ x ∈ r, x.isSome = true)
    (hc : (colIndex t.cols c).isSome = true) :
    countNonNull (colCells t c) = t.rows.length := by
  obtain ⟨i, hi⟩ := Option.isSome_iff_exists.mp hc
  have hlen : ∀ r ∈ t.rows, (getCell t.cols r c).isSome = true := by
    intro r hr
    unfold getCell
    rw [hi]
    dsimp only
    have hrl : r.length = t.cols.length := hwf r hr
    have hilt : i < r.length := hrl ▸ colIndex_lt_length hi
    have hx : r.get? i = some (r.get ⟨i, hilt⟩) := List.get?_eq_get hilt
    rw [hx]
    exact hall r hr _ (List.get?_mem hx)
  have : ∀ x ∈ colCells t c, x.isSome = true := by
    intro x hx
    simp only [colCells, List.mem_map] at hx
    obtain ⟨r, hr, rfl⟩ := hx
    exact hlen r hr
  rw [countNonNull_eq_length this]
  simp [colCells]

theorem load_data_tabdb_ok {t tv : Table} (h : validate_tabdb t = Except.ok tv)
    (dm : DataManager) (ps rs : ReadResult) :
    (load_data dm (.ok t) ps rs).1.tabdb = some tv := by
  cases ps with
  | fileNotFound m => simp [load_data, h]
  | emptyData => simp [load_data, h]
  | ok praw =>
    cases hp : validate_playdb praw with
    | error m => simp [load_data, h, hp]
    | ok pval =>
      cases rs with
      | fileNotFound m => simp [load_data, h, hp]
      | emptyData => simp [load_data, h, hp]
      | ok rraw =>
        cases hr : validate_requestdb rraw with
        | error m => simp [load_data, h, hp, hr]
        | ok rval => simp [load_data, h, hp, hr]

theorem zip_filter_fst_length (q : String → Bool) :
    ∀ (as : List String) (bs : List Cell), as.length = bs.length →
      (((as.zip bs).filter (fun p => q p.1)).map Prod.snd).length =
        (as.filter q).length := by
  intro as
  induction as with
  | nil =>
    intro bs h
    simp
  | cons a as ih =>
    intro bs h
    cases bs with
    | nil => simp at h
    | cons b bs =>
      have hlen : as.length = bs.length := by simpa using h
      simp only [List.zip_cons_cons, List.filter_cons]
      by_cases hq : q a
      · simp [hq, ih bs hlen]
      · simp [hq, ih bs hlen]

theorem dropCols_wf {t : Table} {names : List String} (hwf : t.wf) :
    (dropCols t names).wf := by
  intro r hr
  simp only [dropCols, List.mem_map] at hr
  obtain ⟨r0, hr0, rfl⟩ := hr
  exact zip_filter_fst_length (fun c => !(names.contains c)) t.cols r0 (hwf r0 hr0).symm

theorem dropCols_allSome {t : Table} {names : List String}
    (hall : ∀ r ∈ t.rows, ∀ x ∈ r, x.isSome = true) :
    ∀ r ∈ (dropCols t names).rows, ∀ x ∈ r, x.isSome = true := by
  intro r hr x hx
  simp only [dropCols, List.mem_map] at hr
  obtain ⟨r0, hr0, rfl⟩ := hr
  simp only [List.mem_map, List.mem_filter] at hx
  obtain ⟨⟨c, y⟩, ⟨hmem, _⟩, rfl⟩ := hx
  exact hall r0 hr0 _ (List.of_mem_zip hmem).2

theorem fillna_allSome (v : CellV) (t : Table) :
    ∀ r ∈ (fillna v t).rows, ∀ x ∈ r, x.isSome = true := by
  intro r hr x hx
  simp only [fillna, List.mem_map] at hr
  obtain ⟨r0, _, rfl⟩ := hr
  exact mem_fillnaRow_isSome hx

theorem fillna_wf {v : CellV} {t : Table} (hwf : t.wf) : (fillna v t).wf := by
  intro r hr
  simp only [fillna, List.mem_map] at hr
  obtain ⟨r0, hr0, rfl⟩ := hr
  simpa [fillnaRow] using hwf r0 hr0

theorem playCounts_all_rows {t : Table} (hwf : t.wf)
    (hall : ∀ r ∈ t.rows, ∀ x ∈ r, x.isSome = true) :
    ∀ k ∈ playCounts t, k = t.rows.length := by
  intro k hk
  simp only [playCounts, List.mem_map] at hk
  obtain ⟨c, hc, rfl⟩ := hk
  rw [countNonNull_col_of_allSome (dropCols_wf hwf) (dropCols_allSome hall)
    (colIndex_isSome_iff_mem.mpr hc)]
  simp [dropCols]

theorem validate_playdb_ok_parts {t tv : Table} (h : validate_playdb t = Except.ok tv) :
    tv = fillna (.str "") t ∧ t.cols.contains "song" = true ∧
      t.cols.contains "artist" = true := by
  unfold validate_playdb at h
  cases hf : (["song", "artist"].find? (fun c => !(t.cols.contains c))) with
  | some c =>
    rw [hf] at h
    cases h
  | none =>
    rw [hf] at h
    have hall := List.find?_eq_none.mp hf
    refine ⟨?_, ?_, ?_⟩
    · injection h with h
      exact h.symm
    · have := hall "song" (by simp)
      simpa using this
    · have := hall "artist" (by simp)
      simpa using this

/-! ## Concrete example data -/

/-- A valid tab source: all 12 columns, numeric `year`/`difficulty`, a few
null cells, and one unparsable `date` cell. -/
def tabEx : Table :=
  ⟨["song", "artist", "year", "type", "gender", "duration", "language",
    "tabber", "source", "date", "difficulty", "special books"],
   [[some (.str "A"), some (.str "B"), some (.str "1985"), none, some (.str "m"),
     some (.str "3.5"), some (.str "en"), some (.str "t"), some (.str "s"),
     some (.str "2020-01-01"), some (.str "2"), none],
    [some (.str "C"), some (.str "D"), some (.str "1989"), some (.str "x"), some (.str "f"),
     some (.str "4"), some (.str "en"), some (.str "t"), some (.str "s"),
     some (.str "n/a"), some (.str "3"), some (.str "y")],
    [some (.str "E"), some (.str "F"), some (.str "1994"), some (.str "x"), some (.str "f"),
     some (.str "4"), some (.str "en"), some (.str "t"), some (.str "s"),
     some (.str "2020-06-15"), some (.str "3"), some (.str "y")]]⟩

/-- A `DataManager` state with only the tab table loaded. -/
def dmTabEx : DataManager := ⟨some tabEx, none, none⟩

/-- A tab source missing the required `song` column. -/
def tabMissingSong : Table :=
  ⟨["artist", "year"], [[some (.str "B"), some (.str "1990")]]⟩

/-- A valid play source: 5 rows, date column `d1` with 3 non-null cells
and date column `d2` with 5. -/
def playEx : Table :=
  ⟨["song", "artist", "d1", "d2"],
   [[some (.str "A"), some (.str "B"), some (.str "1"), some (.str "1")],
    [some (.str "C"), some (.str "D"), none, some (.str "1")],
    [some (.str "E"), some (.str "F"), some (.str "1"), some (.str "1")],
    [some (.str "G"), some (.str "H"), none, some (.str "1")],
    [some (.str "I"), some (.str "J"), some (.str "1"), some (.str "1")]]⟩

/-- A `DataManager` state with only the play table loaded. -/
def dmPlayEx : DataManager := ⟨none, some playEx, none⟩

/-! ## Claims -/

/-- Claim C1, corrected.  For a tab source whose first absent required
column is `c`, `_validate_tabdb` does raise a descriptive `ValueError`
naming the column and the source file, but `load_data` catches the
exception (printing the message) instead of propagating it to the caller,
and the raw, unvalidated table remains installed as `tabdb`; the other
sources are then not attempted. -/
theorem C1_load_missing_column {t : Table} {c : String}
    (h : required_columns.find? (fun c => !(t.cols.contains c)) = some c)
    (dm : DataManager) (ps rs : ReadResult) :
    validate_tabdb t = .error ("Missing required column in tabdb.csv: " ++ c) ∧
    load_data dm (.ok t) ps rs =
      ({ dm with tabdb := some t },
       ["An unexpected error occurred: " ++ ("Missing required column in tabdb.csv: " ++ c)]) := by
  have hv : validate_tabdb t =
      .error ("Missing required column in tabdb.csv: " ++ c) := by
    unfold validate_tabdb
    rw [h]
  exact ⟨hv, by simp [load_data, hv]⟩

/-- Witness for C1_load_missing_column: a concrete source missing `song`. -/
theorem C1_witness :
    required_columns.find? (fun c => !(tabMissingSong.cols.contains c)) = some "song" ∧
    (validate_tabdb tabMissingSong =
        .error ("Missing required column in tabdb.csv: " ++ "song") ∧
      load_data ⟨none, none, none⟩ (.ok tabMissingSong) (.ok playEx) (.ok playEx) =
        ({ tabdb := some tabMissingSong, playdb := none, requestdb := none },
         ["An unexpected error occurred: "
            ++ ("Missing required column in tabdb.csv: " ++ "song")])) :=
  ⟨by decide, C1_load_missing_column (by decide) ⟨none, none, none⟩ (.ok playEx) (.ok playEx)⟩

/-- Counterexample to claim C1 as stated: after loading a tab source
missing `song`, the tab table is NOT left unset — the raw unvalidated
table is installed. -/
theorem C1_counterexample :
    (load_data ⟨none, none, none⟩ (.ok tabMissingSong) (.ok playEx) (.ok playEx)).1.tabdb
        = some tabMissingSong ∧
    (load_data ⟨none, none, none⟩ (.ok tabMissingSong) (.ok playEx) (.ok playEx)).1.tabdb
        ≠ none :=
  ⟨by decide, by decide⟩

/-- Claim C2, corrected.  The three sources are read and validated
sequentially inside one try block, so a tab-source failure ends the call:
the play and request sources are NOT attempted (their fields keep their
previous values). -/
theorem C2_load_aborts {t : Table} {m : String}
    (h : validate_tabdb t = .error m) (dm : DataManager) (ps rs : ReadResult) :
    (load_data dm (.ok t) ps rs).1.playdb = dm.playdb ∧
    (load_data dm (.ok t) ps rs).1.requestdb = dm.requestdb := by
  constructor <;> simp [load_data, h]

/-- Witness for C2_load_aborts: the concrete aborted load. -/
theorem C2_witness :
    validate_tabdb tabMissingSong =
      .error ("Missing required column in tabdb.csv: " ++ "song") ∧
    ((load_data ⟨none, none, none⟩ (.ok tabMissingSong) (.ok playEx) (.ok playEx)).1.playdb
        = (⟨none, none, none⟩ : DataManager).playdb ∧
     (load_data ⟨none, none, none⟩ (.ok tabMissingSong) (.ok playEx) (.ok playEx)).1.requestdb
        = (⟨none, none, none⟩ : DataManager).requestdb) :=
  ⟨by decide,
   @C2_load_aborts tabMissingSong ("Missing required column in tabdb.csv: " ++ "song")
     (by decide) ⟨none, none, none⟩ (.ok playEx) (.ok playEx)⟩

/-- Counterexample to claim C2 as stated: the play source is perfectly
valid, yet after the tab source fails it is never read — `playdb` stays
unset. -/
theorem C2_counterexample :
    validate_playdb playEx = .ok (fillna (.str "") playEx) ∧
    (load_data ⟨none, none, none⟩ (.ok tabMissingSong) (.ok playEx) (.ok playEx)).1.playdb
      = none :=
  ⟨by decide, by decide⟩

/-- Counterexample to claim C3 as stated: running `filter_by_date_range`
mutates the stored tab table — the `date` column is re-parsed in place
(its unparsable cell becomes `NaT`, its strings become datetimes). -/
theorem C3_counterexample :
    (filter_by_date_range dmTabEx "2020-01-01" "2020-12-31").map (fun p => p.1.tabdb)
      = .ok (some (reparse_dates tabEx)) ∧
    some (reparse_dates tabEx) ≠ dmTabEx.tabdb :=
  ⟨by decide, by decide⟩

/-- Claim C3, corrected.  A date-range query does mutate the stored tab
table, but the mutation is exactly the in-place re-parse of the `date`
column: the schema, the row count/order, every non-`date` column, and the
other two stored tables are unchanged. -/
theorem C3_date_filter_mutates_only_date {dm : DataManager} {t : Table}
    {sd ed : Date} {s e : String} (h : dm.tabdb = some t)
    (hd : t.cols.contains "date" = true)
    (hs : parseDateStr s = some sd) (he : parseDateStr e = some ed) :
    (∃ res, filter_by_date_range dm s e =
        .ok ({ dm with tabdb := some (reparse_dates t) }, res)) ∧
    (reparse_dates t).cols = t.cols ∧
    (reparse_dates t).rows.length = t.rows.length ∧
    (∀ c, c ≠ "date" → colCells (reparse_dates t) c = colCells t c) ∧
    ({ dm with tabdb := some (reparse_dates t) } : DataManager).playdb = dm.playdb ∧
    ({ dm with tabdb := some (reparse_dates t) } : DataManager).requestdb
      = dm.requestdb := by
  refine ⟨⟨Table.mk (reparse_dates t).cols
      ((reparse_dates t).rows.filter
        (fun r => dateCellInRange sd ed (getCell (reparse_dates t).cols r "date"))),
      ?_⟩, rfl, by simp [reparse_dates], ?_, rfl, rfl⟩
  · simp [filter_by_date_range, h, colIndex_isSome_of_contains hd, hs, he]
  · intro c hc
    simp only [colCells, reparse_dates, List.map_map]
    exact List.map_congr_left (fun r _ => getCell_parseRowDate_ne hc)

/-- Witness for C3_date_filter_mutates_only_date at the concrete state. -/
theorem C3_witness :
    dmTabEx.tabdb = some tabEx ∧
    tabEx.cols.contains "date" = true ∧
    parseDateStr "2020-01-01" = some (Date.mk 2020 1 1) ∧
    parseDateStr "2020-12-31" = some (Date.mk 2020 12 31) ∧
    ((∃ res, filter_by_date_range dmTabEx "2020-01-01" "2020-12-31" =
        .ok ({ dmTabEx with tabdb := some (reparse_dates tabEx) }, res)) ∧
      (reparse_dates tabEx).cols = tabEx.cols ∧
      (reparse_dates tabEx).rows.length = tabEx.rows.length ∧
      (∀ c, c ≠ "date" → colCells (reparse_dates tabEx) c = colCells tabEx c) ∧
      ({ dmTabEx with tabdb := some (reparse_dates tabEx) } : DataManager).playdb
        = dmTabEx.playdb ∧
      ({ dmTabEx with tabdb := some (reparse_dates tabEx) } : DataManager).requestdb
        = dmTabEx.requestdb) :=
  ⟨rfl, by decide, by decide, by decide,
   @C3_date_filter_mutates_only_date dmTabEx tabEx (Date.mk 2020 1 1)
     (Date.mk 2020 12 31) "2020-01-01" "2020-12-31" rfl (by decide) (by decide)
     (by decide)⟩

/-- Predicate on an ORIGINAL (unparsed) row: its `date` cell parses to a
date within `[sd, ed]`; unparsable or null dates fail the predicate. -/
def rowDateInRange (cols : List String) (sd ed : Date) (r : List Cell) : Bool :=
  match cellDate (getCell cols r "date") with
  | some d => Date.le sd d && Date.le d ed
  | none => false

/-- Claim C4, confirmed.  On a loaded tab table with parsable bounds
`start <= end`, `filter_by_date_range` returns exactly the rows whose
`date` cell parses to a date within `[start, end]` inclusive (unparsable
dates excluded), in original order, with the `date` cells re-parsed; and
with `start = end` the kept rows are exactly those whose date parses to
exactly that date. -/
theorem C4_filter_by_date_range {dm : DataManager} {t : Table} {sd ed : Date}
    {s e : String} (h : dm.tabdb = some t)
    (hd : t.cols.contains "date" = true)
    (hs : parseDateStr s = some sd) (he : parseDateStr e = some ed)
    (hse : Date.le sd ed = true) :
    filter_by_date_range dm s e =
      .ok ({ dm with tabdb := some (reparse_dates t) },
           ⟨t.cols,
            (t.rows.filter (rowDateInRange t.cols sd ed)).map (parseRowDate t.cols)⟩) ∧
    (sd = ed →
      t.rows.filter (rowDateInRange t.cols sd ed) =
        t.rows.filter (fun r => cellDate (getCell t.cols r "date") == some sd)) := by
  obtain ⟨i, hi⟩ := Option.isSome_iff_exists.mp (colIndex_isSome_of_contains hd)
  have hmask : ∀ r : List Cell,
      dateCellInRange sd ed (getCell t.cols (parseRowDate t.cols r) "date") =
        rowDateInRange t.cols sd ed r := by
    intro r
    rw [getCell_parseRowDate_date hi, dateCellInRange_map]
    rfl
  constructor
  · simp only [filter_by_date_range, h, colIndex_isSome_of_contains hd, hs, he,
      if_pos, reparse_dates]
    refine congrArg _ (Prod.ext rfl (Table.mk.injEq _ _ _ _ ▸ ⟨rfl, ?_⟩))
    show (t.rows.map (parseRowDate t.cols)).filter _ = _
    rw [List.filter_map]
    refine congrArg _ (List.filter_congr ?_)
    intro r _
    exact hmask r
  · intro hde
    subst hde
    refine List.filter_congr ?_
    intro r _
    unfold rowDateInRange
    cases hcd : cellDate (getCell t.cols r "date") with
    | none => simp
    | some d =>
      by_cases hds : d = sd
      · subst hds
        simp [Date.le_refl]
      · have hne : ((some d : Option Date) == some sd) = false := by
          simp [hds]
        cases hb1 : Date.le sd d <;> cases hb2 : Date.le d sd <;>
          simp only [hb1, hb2, hne, Bool.and_self, Bool.and_true, Bool.and_false,
            Bool.false_and, Bool.true_and]
        exact absurd (Date.le_antisymm hb1 hb2).symm hds

/-- Witness for C4_filter_by_date_range at a concrete state and bounds. -/
theorem C4_witness :
    dmTabEx.tabdb = some tabEx ∧
    tabEx.cols.contains "date" = true ∧
    parseDateStr "2020-01-01" = some (Date.mk 2020 1 1) ∧
    parseDateStr "2020-12-31" = some (Date.mk 2020 12 31) ∧
    Date.le (Date.mk 2020 1 1) (Date.mk 2020 12 31) = true ∧
    (filter_by_date_range dmTabEx "2020-01-01" "2020-12-31" =
        .ok ({ dmTabEx with tabdb := some (reparse_dates tabEx) },
             ⟨tabEx.cols,
              (tabEx.rows.filter
                  (rowDateInRange tabEx.cols (Date.mk 2020 1 1) (Date.mk 2020 12 31))).map
                (parseRowDate tabEx.cols)⟩) ∧
      (Date.mk 2020 1 1 = Date.mk 2020 12 31 →
        tabEx.rows.filter
            (rowDateInRange tabEx.cols (Date.mk 2020 1 1) (Date.mk 2020 12 31)) =
          tabEx.rows.filter
            (fun r => cellDate (getCell tabEx.cols r "date") == some (Date.mk 2020 1 1)))) :=
  ⟨rfl, by decide, by decide, by decide, by decide,
   @C4_filter_by_date_range dmTabEx tabEx (Date.mk 2020 1 1) (Date.mk 2020 12 31)
     "2020-01-01" "2020-12-31" rfl (by decide) (by decide) (by decide) (by decide)⟩

/-- Claim C5, confirmed.  For criteria columns in the schema, filtering by
one criterion and then by a second yields the same table as one call with
both criteria, and each result preserves original row order (it is a
sublist of its input). -/
theorem C5_filter_and_composability {dm : DataManager} {t : Table}
    {c1 c2 v1 v2 : String} (h : dm.tabdb = some t)
    (h1 : t.cols.contains c1 = true) (h2 : t.cols.contains c2 = true) :
    filter_tabdb dm [(c1, v1)] =
      .ok ⟨t.cols, t.rows.filter (rowMatches t.cols c1 v1)⟩ ∧
    applyFilters ⟨t.cols, t.rows.filter (rowMatches t.cols c1 v1)⟩ [(c2, v2)] =
      .ok ⟨t.cols,
           (t.rows.filter (rowMatches t.cols c1 v1)).filter (rowMatches t.cols c2 v2)⟩ ∧
    filter_tabdb dm [(c1, v1), (c2, v2)] =
      .ok ⟨t.cols,
           (t.rows.filter (rowMatches t.cols c1 v1)).filter (rowMatches t.cols c2 v2)⟩ ∧
    (t.rows.filter (rowMatches t.cols c1 v1)).Sublist t.rows ∧
    ((t.rows.filter (rowMatches t.cols c1 v1)).filter (rowMatches t.cols c2 v2)).Sublist
      (t.rows.filter (rowMatches t.cols c1 v1)) := by
  refine ⟨?_, ?_, ?_, List.filter_sublist t.rows, List.filter_sublist _⟩
  · simp only [filter_tabdb, h, applyFilters]
    rw [if_pos h1]
  · simp only [applyFilters]
    rw [if_pos h2]
  · simp only [filter_tabdb, h, applyFilters]
    rw [if_pos h1, if_pos h2]

/-- Witness for C5_filter_and_composability at a concrete table. -/
theorem C5_witness :
    dmTabEx.tabdb = some tabEx ∧
    tabEx.cols.contains "gender" = true ∧
    tabEx.cols.contains "type" = true ∧
    (filter_tabdb dmTabEx [("gender", "f")] =
        .ok ⟨tabEx.cols, tabEx.rows.filter (rowMatches tabEx.cols "gender" "f")⟩ ∧
      applyFilters ⟨tabEx.cols, tabEx.rows.filter (rowMatches tabEx.cols "gender" "f")⟩
          [("type", "x")] =
        .ok ⟨tabEx.cols,
             (tabEx.rows.filter (rowMatches tabEx.cols "gender" "f")).filter
               (rowMatches tabEx.cols "type" "x")⟩ ∧
      filter_tabdb dmTabEx [("gender", "f"), ("type", "x")] =
        .ok ⟨tabEx.cols,
             (tabEx.rows.filter (rowMatches tabEx.cols "gender" "f")).filter
               (rowMatches tabEx.cols "type" "x")⟩ ∧
      (tabEx.rows.filter (rowMatches tabEx.cols "gender" "f")).Sublist tabEx.rows ∧
      ((tabEx.rows.filter (rowMatches tabEx.cols "gender" "f")).filter
          (rowMatches tabEx.cols "type" "x")).Sublist
        (tabEx.rows.filter (rowMatches tabEx.cols "gender" "f"))) :=
  ⟨rfl, by decide, by decide,
   C5_filter_and_composability rfl (by decide) (by decide)⟩

/-- The criterion loop raises on the first criterion naming an absent
column, no matter what valid criteria precede it. -/
theorem applyFilters_unknown {c v : String} {post : List (String × String)} :
    ∀ (pre : List (String × String)) (df : Table),
      (∀ p ∈ pre, df.cols.contains p.1 = true) → df.cols.contains c = false →
      applyFilters df (pre ++ (c, v) :: post) =
        .error ("Column \x27" ++ c ++ "\x27 does not exist in tabdb.")
  | [], df, _, hc => by
    rw [List.nil_append, applyFilters, if_neg (by simp only [hc]; decide)]
  | (c0, v0) :: pre, df, hpre, hc => by
    have h0 : df.cols.contains c0 = true := hpre (c0, v0) (by simp)
    rw [List.cons_append, applyFilters, if_pos h0]
    exact applyFilters_unknown pre _ (fun p hp => hpre p (by simp [hp])) hc

/-- Claim C6, confirmed.  When the criteria contain a column absent from
the schema (`c` the first such, in criterion order), `filter_tabdb` raises
a `ValueError` whose message names the offending column, and no filtered
frame is returned; the stored table is never reassigned by this query. -/
theorem C6_filter_unknown_column {dm : DataManager} {t : Table}
    {pre post : List (String × String)} {c v : String} (h : dm.tabdb = some t)
    (hpre : ∀ p ∈ pre, t.cols.contains p.1 = true)
    (hc : t.cols.contains c = false) :
    filter_tabdb dm (pre ++ (c, v) :: post) =
      .error ("Column \x27" ++ c ++ "\x27 does not exist in tabdb.") := by
  rw [filter_tabdb, h]
  exact applyFilters_unknown pre t hpre hc

/-- Witness for C6_filter_unknown_column: one valid criterion followed by
a criterion on an absent column. -/
theorem C6_witness :
    dmTabEx.tabdb = some tabEx ∧
    (∀ p ∈ [("gender", "f")], tabEx.cols.contains p.1 = true) ∧
    tabEx.cols.contains "bogus" = false ∧
    filter_tabdb dmTabEx ([("gender", "f")] ++ ("bogus", "1") :: []) =
      .error ("Column \x27" ++ "bogus" ++ "\x27 does not exist in tabdb.") :=
  ⟨rfl, by decide, by decide,
   C6_filter_unknown_column rfl (by decide) (by decide)⟩

/-- Claim C7, confirmed.  For a tab source with all 12 required columns
and numeric `year`/`difficulty` dtypes, validation succeeds, every null
cell is replaced by the string `"Unknown"`, no cell of the stored table is
null afterward, and `load_data` installs exactly this filled table. -/
theorem C7_validate_tab_fills_unknown {t : Table}
    (hcols : required_columns.all (fun c => t.cols.contains c) = true)
    (hy : numericDtype (colCells t "year") = true)
    (hd : numericDtype (colCells t "difficulty") = true) :
    validate_tabdb t = .ok (fillna (.str "Unknown") t) ∧
    (∀ r ∈ (fillna (.str "Unknown") t).rows, ∀ x ∈ r, x.isSome = true) ∧
    ∀ (dm : DataManager) (ps rs : ReadResult),
      (load_data dm (.ok t) ps rs).1.tabdb = some (fillna (.str "Unknown") t) := by
  have hfind : required_columns.find? (fun c => !(t.cols.contains c)) = none := by
    refine List.find?_eq_none.mpr ?_
    intro x hx
    have := List.all_eq_true.mp hcols x hx
    simp [this, List.elem_iff.mp this]
  have hv : validate_tabdb t = .ok (fillna (.str "Unknown") t) := by
    rw [validate_tabdb, hfind]
    simp [hy, hd]
  exact ⟨hv, fillna_allSome _ t, fun dm ps rs => load_data_tabdb_ok hv dm ps rs⟩

/-- Witness for C7_validate_tab_fills_unknown at the concrete valid
source (which has two null cells). -/
theorem C7_witness :
    required_columns.all (fun c => tabEx.cols.contains c) = true ∧
    numericDtype (colCells tabEx "year") = true ∧
    numericDtype (colCells tabEx "difficulty") = true ∧
    (validate_tabdb tabEx = .ok (fillna (.str "Unknown") tabEx) ∧
      (∀ r ∈ (fillna (.str "Unknown") tabEx).rows, ∀ x ∈ r, x.isSome = true) ∧
      ∀ (dm : DataManager) (ps rs : ReadResult),
        (load_data dm (.ok tabEx) ps rs).1.tabdb =
          some (fillna (.str "Unknown") tabEx)) :=
  ⟨by decide, by decide, by decide,
   C7_validate_tab_fills_unknown (by decide) (by decide) (by decide)⟩

/-- Claim C8, confirmed.  On a loaded tab table, the decade chart series
lists (decade, count) pairs in strictly ascending decade order, and a
pair is in the series exactly when the decade arises from some row whose
`year` coerces to a number (failures excluded) and the count is its
number of occurrences. -/
theorem C8_counts_by_decade {dm : DataManager} {t : Table}
    (h : dm.tabdb = some t) (hy : t.cols.contains "year" = true) :
    ∃ p, plot_bar_chart_by_decade dm = .ok p ∧
      p.2.Pairwise (fun a b => a.1 < b.1) ∧
      ∀ d k, ((d, k) ∈ p.2 ↔ (d ∈ rowDecades t ∧ k = (rowDecades t).count d)) := by
  have hidx : (colIndex t.cols "year").isSome = true := colIndex_isSome_of_contains hy
  refine ⟨({ dm with tabdb := some (setColumnCells (setColumnCells t "year"
      ((colCells t "year").map (fun c => (cellToNum c).map CellV.num))) "decade"
      ((colCells t "year").map
        (fun c => (cellToNum c).map (fun y => CellV.num (y.fdiv 10 * 10))))) },
    (sortedDedup (rowDecades t)).map (fun d => (d, (rowDecades t).count d))),
    ?_, ?_, ?_⟩
  · simp only [plot_bar_chart_by_decade, h]
    rw [if_pos hidx]
  · exact List.pairwise_map.mpr (sorted_sortedDedup (rowDecades t))
  · intro d k
    constructor
    · intro hm
      obtain ⟨d0, hd0, heq⟩ := List.mem_map.mp hm
      obtain ⟨he1, he2⟩ := Prod.mk.injEq _ _ _ _ ▸ heq
      subst he1
      exact ⟨mem_sortedDedup.mp hd0, he2.symm⟩
    · rintro ⟨hd, rfl⟩
      exact List.mem_map.mpr ⟨d, mem_sortedDedup.mpr hd, rfl⟩

/-- Witness for C8_counts_by_decade: over years {1985, 1989, 1994} the
series is [(1980, 2), (1990, 1)], ascending. -/
theorem C8_witness :
    dmTabEx.tabdb = some tabEx ∧
    tabEx.cols.contains "year" = true ∧
    (∃ p, plot_bar_chart_by_decade dmTabEx = .ok p ∧
      p.2.Pairwise (fun a b => a.1 < b.1) ∧
      ∀ d k, ((d, k) ∈ p.2 ↔ (d ∈ rowDecades tabEx ∧ k = (rowDecades tabEx).count d))) ∧
    rowDecades tabEx = [1980, 1980, 1990] ∧
    (plot_bar_chart_by_decade dmTabEx).map (fun p => p.2) =
      .ok [(1980, 2), (1990, 1)] :=
  ⟨rfl, by decide, C8_counts_by_decade rfl (by decide), by decide, by decide⟩

/-- Claim C9, confirmed.  On a loaded play table, the cumulative chart
drops `song`/`artist`, pairs each remaining column (in original order)
with a running total, and the i-th total is the sum of the first i+1
per-column non-null counts. -/
theorem C9_cumulative_plays {dm : DataManager} {t : Table}
    (h : dm.playdb = some t) (hs : t.cols.contains "song" = true)
    (ha : t.cols.contains "artist" = true) :
    plot_cumulative_line_chart dm =
      .ok ((dropCols t ["song", "artist"]).cols.zip (cumsum (playCounts t))) ∧
    (cumsum (playCounts t)).length = (playCounts t).length ∧
    ∀ i (hi : i < (cumsum (playCounts t)).length),
      (cumsum (playCounts t)).get ⟨i, hi⟩ = ((playCounts t).take (i + 1)).sum := by
  refine ⟨?_, cumsumAux_length 0 (playCounts t), ?_⟩
  · simp only [plot_cumulative_line_chart, h]
    rw [if_pos (by rw [hs, ha]; rfl)]
  · intro i hi
    simpa using cumsumAux_get 0 (playCounts t) i hi

/-- Witness for C9_cumulative_plays: per-column counts [3, 5] cumulate to
[3, 8]. -/
theorem C9_witness :
    dmPlayEx.playdb = some playEx ∧
    playEx.cols.contains "song" = true ∧
    playEx.cols.contains "artist" = true ∧
    (plot_cumulative_line_chart dmPlayEx =
        .ok ((dropCols playEx ["song", "artist"]).cols.zip (cumsum (playCounts playEx))) ∧
      (cumsum (playCounts playEx)).length = (playCounts playEx).length ∧
      ∀ i (hi : i < (cumsum (playCounts playEx)).length),
        (cumsum (playCounts playEx)).get ⟨i, hi⟩ =
          ((playCounts playEx).take (i + 1)).sum) ∧
    playCounts playEx = [3, 5] ∧
    plot_cumulative_line_chart dmPlayEx = .ok [("d1", 3), ("d2", 8)] :=
  ⟨rfl, by decide, by decide, C9_cumulative_plays rfl (by decide) (by decide),
   by decide, by decide⟩

/-- Claim C10, confirmed.  After play-table validation succeeds, the
stored table is the null-filled source (empty strings count as present),
so every column count — `count_song_plays` and each per-column count the
cumulative chart uses — equals the number of rows. -/
theorem C10_play_counts_after_validate {t tv : Table}
    (hwf : t.wf) (hv : validate_playdb t = .ok tv) :
    tv = fillna (.str "") t ∧
    (∀ (dm : DataManager), dm.playdb = some tv →
      ∀ c, tv.cols.contains c = true →
        countNonNull (colCells tv c) = t.rows.length ∧
        count_song_plays dm c = .ok t.rows.length) ∧
    ∀ k ∈ playCounts tv, k = t.rows.length := by
  obtain ⟨hfill, _, _⟩ := validate_playdb_ok_parts hv
  subst hfill
  have hwf2 : (fillna (.str "") t).wf := fillna_wf hwf
  have hall := fillna_allSome (.str "") t
  have hrows : (fillna (.str "") t).rows.length = t.rows.length := by
    simp [fillna]
  refine ⟨rfl, ?_, ?_⟩
  · intro dm hdm c hc
    have hcount : countNonNull (colCells (fillna (.str "") t) c) = t.rows.length := by
      rw [countNonNull_col_of_allSome hwf2 hall (colIndex_isSome_of_contains hc)]
      exact hrows
    refine ⟨hcount, ?_⟩
    rw [count_song_plays, hdm]
    dsimp only
    rw [if_pos hc, hcount]
  · intro k hk
    have := playCounts_all_rows hwf2 hall k hk
    rw [this]
    exact hrows

/-- Witness for C10_play_counts_after_validate at the concrete play
source with two null cells: every column count is 5. -/
theorem C10_witness :
    playEx.wf ∧
    validate_playdb playEx = .ok (fillna (.str "") playEx) ∧
    count_song_plays ⟨none, some (fillna (.str "") playEx), none⟩ "d1" =
      .ok playEx.rows.length ∧
    count_song_plays ⟨none, some (fillna (.str "") playEx), none⟩ "d1" = .ok 5 :=
  ⟨by unfold Table.wf; decide, by decide,
   ((C10_play_counts_after_validate (by unfold Table.wf; decide) (by decide)).2.1
      ⟨none, some (fillna (.str "") playEx), none⟩ rfl "d1" (by decide)).2,
   by decide⟩
